import Mathlib

/-!
Shallow embedding of the Snake game in `src/main.py` (class `SnakeGame`).

Modelling conventions:
* The snake is a `List (Int × Int)` in deque order: index 0 is the tail
  (`popleft` drops it), the last element is the head (`snake[-1]`).
* Randomness (`random.choice`, `random.random() < 0.1`) is passed in
  explicitly: `random.choice l` is modelled by `choice l i` for an arbitrary
  index `i`, which can return any element of `l` and only elements of `l`;
  the special-food probability roll is an arbitrary `Bool`.
* The high-score file `high_score.json` is modelled as an `Option Json`
  field of the game (none = file absent); `json.dumps`/`json.loads` are
  external library code, so the file holds the parsed JSON value.
* Screen output (pygame surfaces, blits) is external and has no effect on
  game fields; every `_draw_*` method is therefore a function
  `SnakeGame → SnakeGame` recording exactly its effect on the game fields.
  `_draw_food` is the only drawing method that writes game state.
* Particles carry cosmetic floating-point data (position, velocity, colour);
  no claim mentions those, so each particle is modelled by the only field
  the game logic branches on, its integer remaining lifetime (`life`,
  created at 30, decremented and filtered in `_update_particles`).
-/

namespace Snake2025

/-- Enumeration for snake movement directions (`class Direction`). -/
inductive Direction
  | up
  | down
  | left
  | right
deriving DecidableEq, Repr

/-- Unit vector of a direction (`Direction.value` in the source). -/
def Direction.value : Direction → Int × Int
  | .up => (0, -1)
  | .down => (0, 1)
  | .left => (-1, 0)
  | .right => (1, 0)

/-- Game state enumeration (`class GameState`). -/
inductive GameState
  | menu
  | playing
  | paused
  | gameOver
deriving DecidableEq, Repr

/-- The `self.direction_opposites` lookup table, total on all four directions. -/
def direction_opposites : Direction → Direction
  | .up => .down
  | .down => .up
  | .left => .right
  | .right => .left

/-- Keys relevant to `self.key_mapping` and the event loop; `other` stands
for any key the game ignores. -/
inductive Key
  | arrowUp
  | arrowDown
  | arrowLeft
  | arrowRight
  | w
  | a
  | s
  | d
  | p
  | space
  | escape
  | other
deriving DecidableEq, Repr

/-- The `self.key_mapping` dictionary: `.get` returns `none` on unmapped keys. -/
def key_mapping : Key → Option Direction
  | .arrowUp => some .up
  | .arrowDown => some .down
  | .arrowLeft => some .left
  | .arrowRight => some .right
  | .w => some .up
  | .s => some .down
  | .a => some .left
  | .d => some .right
  | _ => none

/-- Parsed JSON values, as returned by the external `json` library.
Only the constructors the program can produce or meet are needed. -/
inductive Json
  | num (n : Int)
  | obj (fields : List (String × Json))

/-- The game record: the mutable fields of `SnakeGame` that the simulation
reads or writes (display/font/clock handles are external). -/
structure SnakeGame where
  grid_width : Nat
  grid_height : Nat
  state : GameState
  score : Int
  high_score : Int
  snake : List (Int × Int)
  direction : Direction
  next_direction : Direction
  growing : Bool
  food_pos : Option (Int × Int)
  special_food_pos : Option (Int × Int)
  special_food_timer : Nat
  particles : List Nat
  fps : Int
  file : Option Json

/-- Model of `random.choice l`: an arbitrary element of `l`, selected by an
arbitrary ambient index; `none` exactly when `l` is empty. -/
def choice {α : Type} (l : List α) (i : Nat) : Option α :=
  l.get? (i % l.length)

/-- The `valid_positions` list of `_spawn_food`: all grid cells not occupied
by the snake, x-major as in the Python comprehension. -/
def valid_positions (W H : Nat) (snake : List (Int × Int)) : List (Int × Int) :=
  ((List.range W).flatMap fun x =>
    (List.range H).map fun y => ((x : Int), (y : Int))).filter
    fun p => decide (p ∉ snake)

/-- `SnakeGame._spawn_food`: normal food is a random valid cell (`none` when
no cell is free); independently, with probability 0.1 (`roll`), special food
is a random cell of the same list, with timer 150 when present. -/
def spawn_food (g : SnakeGame) (i j : Nat) (roll : Bool) : SnakeGame :=
  let vp := valid_positions g.grid_width g.grid_height g.snake
  let food := choice vp i
  let special := if roll then choice vp j else none
  { g with
    food_pos := food
    special_food_pos := special
    special_food_timer := if special.isSome then 150 else 0 }

/-- `SnakeGame._save_high_score`: the JSON value written to
`high_score.json` (via `json.dumps`, external). -/
def save_high_score (h : Int) : Json :=
  Json.obj [("high_score", Json.num h)]

/-- `SnakeGame._load_high_score`: missing file, non-object content or a
missing key yields 0 (the `except` clause and the `.get` default). -/
def load_high_score : Option Json → Int
  | some (Json.obj fields) =>
    match fields.lookup "high_score" with
    | some (Json.num n) => n
    | _ => 0
  | _ => 0

/-- `SnakeGame._game_over`: enter the GameOver state; if the score beats the
high score, update it and immediately write the file. -/
def game_over (g : SnakeGame) : SnakeGame :=
  let g1 : SnakeGame := { g with state := GameState.gameOver }
  if g1.high_score < g1.score then
    { g1 with high_score := g1.score, file := some (save_high_score g1.score) }
  else g1

/-- `SnakeGame._handle_input`: map the key; accept it as the buffered next
direction unless it is the opposite of the current committed direction. -/
def handle_input (g : SnakeGame) (k : Key) : SnakeGame :=
  match key_mapping k with
  | none => g
  | some nd =>
    if nd ≠ direction_opposites g.direction then { g with next_direction := nd }
    else g

/-- `SnakeGame._create_eat_effect`: append 20 (special) or 10 (normal)
particles, each with lifetime 30; their float kinematics are cosmetic. -/
def create_eat_effect (g : SnakeGame) (special : Bool) : SnakeGame :=
  { g with particles := g.particles ++ List.replicate (if special then 20 else 10) 30 }

/-- `SnakeGame._update_particles`: keep particles with positive life,
decrementing each survivor's life. -/
def update_particles (g : SnakeGame) : SnakeGame :=
  { g with particles := (g.particles.filter fun life => decide (0 < life)).map fun life => life - 1 }

/-- Bounds test of `_move_snake`:
`0 <= new_head[0] < self.grid_width and 0 <= new_head[1] < self.grid_height`. -/
def in_bounds (g : SnakeGame) (p : Int × Int) : Prop :=
  0 ≤ p.1 ∧ p.1 < (g.grid_width : Int) ∧ 0 ≤ p.2 ∧ p.2 < (g.grid_height : Int)

instance (g : SnakeGame) (p : Int × Int) : Decidable (in_bounds g p) := by
  unfold in_bounds; infer_instance

/-- New head cell a tick will produce: current head plus the direction that
the tick commits (`self.next_direction`). -/
def next_head (g : SnakeGame) (head : Int × Int) : Int × Int :=
  (head.1 + g.next_direction.value.1, head.2 + g.next_direction.value.2)

/-- `SnakeGame._move_snake`: commit the buffered direction, compute the new
head, branch on wall/self collision, else advance, handle food and growth.
The `none` branch of the match is unreachable (the snake always has at
least 3 segments) and mirrors that `self.snake[-1]` presumes nonemptiness. -/
def move_snake (g : SnakeGame) (i j : Nat) (roll : Bool) : SnakeGame :=
  let g1 : SnakeGame := { g with direction := g.next_direction }
  match g1.snake.getLast? with
  | none => g1
  | some head =>
    let new_head := (head.1 + g1.direction.value.1, head.2 + g1.direction.value.2)
    if ¬ in_bounds g1 new_head ∨ new_head ∈ g1.snake then
      game_over g1
    else
      let g2 : SnakeGame := { g1 with snake := g1.snake ++ [new_head] }
      let food_eaten := decide (g2.food_pos = some new_head)
      let special_eaten := decide (g2.special_food_pos = some new_head)
      let g3 :=
        if food_eaten || special_eaten then
          let points : Int := if food_eaten then 10 else 50
          let g3a : SnakeGame := { g2 with score := g2.score + points, growing := true }
          let g3b := create_eat_effect g3a special_eaten
          let g3c :=
            if special_eaten then
              { g3b with special_food_pos := none, special_food_timer := 0 }
            else g3b
          if food_eaten then spawn_food g3c i j roll else g3c
        else g2
      if g3.growing then { g3 with growing := false }
      else { g3 with snake := g3.snake.tail }

/-- `SnakeGame._reset_game`: snake of length 3 at the grid centre heading
right, zero score, food spawned, particles cleared. -/
def reset_game (g : SnakeGame) (i j : Nat) (roll : Bool) : SnakeGame :=
  let cx : Int := (g.grid_width : Int) / 2
  let cy : Int := (g.grid_height : Int) / 2
  let g1 : SnakeGame := { g with
    snake := [(cx - 2, cy), (cx - 1, cy), (cx, cy)]
    direction := Direction.right
    next_direction := Direction.right
    score := 0
    growing := false
    special_food_timer := 0 }
  let g2 := spawn_food g1 i j roll
  { g2 with particles := [] }

/-- `SnakeGame._draw_grid`: pure rendering, no game-field effect. -/
def draw_grid (g : SnakeGame) : SnakeGame := g

/-- `SnakeGame._draw_snake` (with `_draw_glow`): pure rendering. -/
def draw_snake (g : SnakeGame) : SnakeGame := g

/-- `SnakeGame._draw_particles`: pure rendering. -/
def draw_particles (g : SnakeGame) : SnakeGame := g

/-- `SnakeGame._draw_ui`: pure rendering. -/
def draw_ui (g : SnakeGame) : SnakeGame := g

/-- `SnakeGame._draw_menu`: pure rendering. -/
def draw_menu (g : SnakeGame) : SnakeGame := g

/-- `SnakeGame._draw_game_over`: pure rendering. -/
def draw_game_over (g : SnakeGame) : SnakeGame := g

/-- `SnakeGame._draw_pause`: pure rendering. -/
def draw_pause (g : SnakeGame) : SnakeGame := g

/-- `SnakeGame._draw_food`: draws the food, but also holds game logic: while
special food is present with a positive timer, the timer is decremented, and
when it reaches zero the special food is removed. -/
def draw_food (g : SnakeGame) : SnakeGame :=
  if g.special_food_pos.isSome ∧ 0 < g.special_food_timer then
    let t := g.special_food_timer - 1
    if t = 0 then { g with special_food_timer := t, special_food_pos := none }
    else { g with special_food_timer := t }
  else g

/-- Simulation part of one iteration of `SnakeGame.run`: when Playing, move
the snake, update particles and recompute the fps from the score. -/
def update_step (g : SnakeGame) (i j : Nat) (roll : Bool) : SnakeGame :=
  if g.state = GameState.playing then
    let g1 := move_snake g i j roll
    let g2 := update_particles g1
    { g2 with fps := min (10 + Int.fdiv g2.score 50) 20 }
  else g

/-- Drawing part of one iteration of `SnakeGame.run`: the state-conditional
draw calls, in source order. -/
def draw_frame (g : SnakeGame) : SnakeGame :=
  match g.state with
  | GameState.playing => draw_ui (draw_particles (draw_snake (draw_food (draw_grid g))))
  | GameState.menu => draw_menu g
  | GameState.paused => draw_pause (draw_ui (draw_snake (draw_food (draw_grid g))))
  | GameState.gameOver => draw_game_over (draw_snake (draw_grid g))

/-- One full iteration of the main loop with no input events: simulation
update followed by the redraw (which branches on the updated state). -/
def frame (g : SnakeGame) (i j : Nat) (roll : Bool) : SnakeGame :=
  draw_frame (update_step g i j roll)

/-! Concrete game states used by witnesses and counterexamples. -/

/-- A small concrete play state: 6×5 grid, snake of length 3 on row 2
heading right, normal food directly ahead of the head. -/
def mkGame : SnakeGame :=
  { grid_width := 6
    grid_height := 5
    state := GameState.playing
    score := 0
    high_score := 0
    snake := [(1, 2), (2, 2), (3, 2)]
    direction := Direction.right
    next_direction := Direction.right
    growing := false
    food_pos := some (4, 2)
    special_food_pos := none
    special_food_timer := 0
    particles := []
    fps := 10
    file := none }

/-- A 1×1 grid fully occupied by the snake: no free cell to spawn food. -/
def fullGame : SnakeGame :=
  { mkGame with grid_width := 1, grid_height := 1, snake := [(0, 0)] }

/-- A play state whose head is about to hit the right wall. -/
def gameWall : SnakeGame :=
  { mkGame with snake := [(3, 2), (4, 2), (5, 2)], food_pos := some (0, 0) }

/-- A play state where the normal and the special food share the cell
directly ahead of the head (a spawn outcome the code permits). -/
def gameShared : SnakeGame :=
  { mkGame with special_food_pos := some (4, 2), special_food_timer := 150 }

/-- A game-over transition state: current score 60 beats high score 40. -/
def gameC6 : SnakeGame :=
  { mkGame with score := 60, high_score := 40 }

/-- A paused state holding a live special food item. -/
def gamePausedSpecial : SnakeGame :=
  { mkGame with
    state := GameState.paused
    food_pos := some (0, 0)
    special_food_pos := some (4, 3)
    special_food_timer := 150 }

/-- A playing state holding a live special food item away from the head's
path, with the normal food elsewhere too. -/
def gameTimer : SnakeGame :=
  { mkGame with
    food_pos := some (0, 0)
    special_food_pos := some (0, 1)
    special_food_timer := 150 }

/-- A playing state with normal food away from the head and a live special
food item, used to exhibit the `_draw_food` state write. -/
def gameSpecial : SnakeGame :=
  { mkGame with
    food_pos := some (0, 0)
    special_food_pos := some (4, 3)
    special_food_timer := 150 }

/-! Helper lemmas: projections of the state-updating operations. -/

@[simp] lemma spawn_food_snake (g : SnakeGame) (i j : Nat) (roll : Bool) :
    (spawn_food g i j roll).snake = g.snake := rfl

@[simp] lemma spawn_food_score (g : SnakeGame) (i j : Nat) (roll : Bool) :
    (spawn_food g i j roll).score = g.score := rfl

@[simp] lemma spawn_food_state (g : SnakeGame) (i j : Nat) (roll : Bool) :
    (spawn_food g i j roll).state = g.state := rfl

@[simp] lemma spawn_food_growing (g : SnakeGame) (i j : Nat) (roll : Bool) :
    (spawn_food g i j roll).growing = g.growing := rfl

@[simp] lemma spawn_food_direction (g : SnakeGame) (i j : Nat) (roll : Bool) :
    (spawn_food g i j roll).direction = g.direction := rfl

@[simp] lemma spawn_food_next_direction (g : SnakeGame) (i j : Nat) (roll : Bool) :
    (spawn_food g i j roll).next_direction = g.next_direction := rfl

@[simp] lemma spawn_food_food_pos (g : SnakeGame) (i j : Nat) (roll : Bool) :
    (spawn_food g i j roll).food_pos =
      choice (valid_positions g.grid_width g.grid_height g.snake) i := rfl

@[simp] lemma spawn_food_special_food_pos (g : SnakeGame) (i j : Nat) (roll : Bool) :
    (spawn_food g i j roll).special_food_pos =
      (if roll then choice (valid_positions g.grid_width g.grid_height g.snake) j
       else none) := rfl

lemma choice_mem {α : Type} {l : List α} {i : Nat} {a : α} (h : choice l i = some a) :
    a ∈ l :=
  List.get?_mem h

lemma mem_valid_positions {W H : Nat} {snake : List (Int × Int)} {p : Int × Int}
    (h : p ∈ valid_positions W H snake) : p ∉ snake := by
  unfold valid_positions at h
  rw [List.mem_filter] at h
  exact of_decide_eq_true h.2

lemma choice_isSome {α : Type} {l : List α} (h : l ≠ []) (i : Nat) :
    (choice l i).isSome = true := by
  have hlen : i % l.length < l.length := Nat.mod_lt _ (List.length_pos.mpr h)
  unfold choice
  rw [List.get?_eq_get hlen]
  rfl

@[simp] lemma game_over_state (g : SnakeGame) :
    (game_over g).state = GameState.gameOver := by
  simp only [game_over]; split <;> rfl

@[simp] lemma game_over_snake (g : SnakeGame) : (game_over g).snake = g.snake := by
  simp only [game_over]; split <;> rfl

@[simp] lemma game_over_score (g : SnakeGame) : (game_over g).score = g.score := by
  simp only [game_over]; split <;> rfl

@[simp] lemma game_over_food_pos (g : SnakeGame) :
    (game_over g).food_pos = g.food_pos := by
  simp only [game_over]; split <;> rfl

@[simp] lemma game_over_special_food_pos (g : SnakeGame) :
    (game_over g).special_food_pos = g.special_food_pos := by
  simp only [game_over]; split <;> rfl

@[simp] lemma game_over_special_food_timer (g : SnakeGame) :
    (game_over g).special_food_timer = g.special_food_timer := by
  simp only [game_over]; split <;> rfl

@[simp] lemma game_over_direction (g : SnakeGame) :
    (game_over g).direction = g.direction := by
  simp only [game_over]; split <;> rfl

@[simp] lemma game_over_next_direction (g : SnakeGame) :
    (game_over g).next_direction = g.next_direction := by
  simp only [game_over]; split <;> rfl

lemma game_over_high_score_of_lt {g : SnakeGame} (h : g.high_score < g.score) :
    (game_over g).high_score = g.score ∧
      (game_over g).file = some (save_high_score g.score) := by
  simp only [game_over]
  constructor <;> rw [if_pos h]

lemma game_over_high_score_of_not_lt {g : SnakeGame} (h : ¬ g.high_score < g.score) :
    (game_over g).high_score = g.high_score ∧ (game_over g).file = g.file := by
  simp only [game_over]
  constructor <;> rw [if_neg h]

/-! Case analysis lemmas for `move_snake`. -/

lemma move_snake_collision (g : SnakeGame) (i j : Nat) (roll : Bool)
    (head : Int × Int) (hhead : g.snake.getLast? = some head)
    (hcol : ¬ in_bounds g (next_head g head) ∨ next_head g head ∈ g.snake) :
    move_snake g i j roll = game_over { g with direction := g.next_direction } := by
  unfold move_snake
  simp only [hhead]
  rw [if_pos]
  exact hcol

lemma move_snake_no_food (g : SnakeGame) (i j : Nat) (roll : Bool)
    (head : Int × Int) (hhead : g.snake.getLast? = some head)
    (hno : in_bounds g (next_head g head)) (hmem : next_head g head ∉ g.snake)
    (hgrow : g.growing = false)
    (hnf : g.food_pos ≠ some (next_head g head))
    (hns : g.special_food_pos ≠ some (next_head g head)) :
    move_snake g i j roll =
      { g with
        direction := g.next_direction
        snake := (g.snake ++ [next_head g head]).tail } := by
  unfold move_snake
  simp only [hhead]
  rw [if_neg (by push_neg; exact ⟨hno, hmem⟩)]
  simp only [next_head] at hnf hns
  simp [next_head, hnf, hns, hgrow]

lemma move_snake_eat_food (g : SnakeGame) (i j : Nat) (roll : Bool)
    (head : Int × Int) (hhead : g.snake.getLast? = some head)
    (hno : in_bounds g (next_head g head)) (hmem : next_head g head ∉ g.snake)
    (hf : g.food_pos = some (next_head g head))
    (hns : g.special_food_pos ≠ some (next_head g head)) :
    move_snake g i j roll =
      { g with
        direction := g.next_direction
        snake := g.snake ++ [next_head g head]
        score := g.score + 10
        growing := false
        particles := g.particles ++ List.replicate 10 30
        food_pos :=
          choice (valid_positions g.grid_width g.grid_height
            (g.snake ++ [next_head g head])) i
        special_food_pos :=
          if roll then
            choice (valid_positions g.grid_width g.grid_height
              (g.snake ++ [next_head g head])) j
          else none
        special_food_timer :=
          if (if roll then
                choice (valid_positions g.grid_width g.grid_height
                  (g.snake ++ [next_head g head])) j
              else none).isSome then 150 else 0 } := by
  unfold move_snake
  simp only [hhead]
  rw [if_neg (by push_neg; exact ⟨hno, hmem⟩)]
  simp only [next_head] at hf hns
  simp [next_head, spawn_food, create_eat_effect, hf, hns]

lemma move_snake_eat_both (g : SnakeGame) (i j : Nat) (roll : Bool)
    (head : Int × Int) (hhead : g.snake.getLast? = some head)
    (hno : in_bounds g (next_head g head)) (hmem : next_head g head ∉ g.snake)
    (hf : g.food_pos = some (next_head g head))
    (hs : g.special_food_pos = some (next_head g head)) :
    move_snake g i j roll =
      { g with
        direction := g.next_direction
        snake := g.snake ++ [next_head g head]
        score := g.score + 10
        growing := false
        particles := g.particles ++ List.replicate 20 30
        food_pos :=
          choice (valid_positions g.grid_width g.grid_height
            (g.snake ++ [next_head g head])) i
        special_food_pos :=
          if roll then
            choice (valid_positions g.grid_width g.grid_height
              (g.snake ++ [next_head g head])) j
          else none
        special_food_timer :=
          if (if roll then
                choice (valid_positions g.grid_width g.grid_height
                  (g.snake ++ [next_head g head])) j
              else none).isSome then 150 else 0 } := by
  unfold move_snake
  simp only [hhead]
  rw [if_neg (by push_neg; exact ⟨hno, hmem⟩)]
  simp only [next_head] at hf hs
  simp [next_head, spawn_food, create_eat_effect, hf, hs]

lemma move_snake_eat_special (g : SnakeGame) (i j : Nat) (roll : Bool)
    (head : Int × Int) (hhead : g.snake.getLast? = some head)
    (hno : in_bounds g (next_head g head)) (hmem : next_head g head ∉ g.snake)
    (hnf : g.food_pos ≠ some (next_head g head))
    (hs : g.special_food_pos = some (next_head g head)) :
    move_snake g i j roll =
      { g with
        direction := g.next_direction
        snake := g.snake ++ [next_head g head]
        score := g.score + 50
        growing := false
        particles := g.particles ++ List.replicate 20 30
        special_food_pos := none
        special_food_timer := 0 } := by
  unfold move_snake
  simp only [hhead]
  rw [if_neg (by push_neg; exact ⟨hno, hmem⟩)]
  simp only [next_head] at hnf hs
  simp [next_head, create_eat_effect, hnf, hs]

/-! Frame-level helper lemmas. -/

@[simp] lemma update_particles_snake (g : SnakeGame) :
    (update_particles g).snake = g.snake := rfl

@[simp] lemma update_particles_state (g : SnakeGame) :
    (update_particles g).state = g.state := rfl

@[simp] lemma update_particles_score (g : SnakeGame) :
    (update_particles g).score = g.score := rfl

@[simp] lemma update_particles_food_pos (g : SnakeGame) :
    (update_particles g).food_pos = g.food_pos := rfl

@[simp] lemma update_particles_special_food_pos (g : SnakeGame) :
    (update_particles g).special_food_pos = g.special_food_pos := rfl

@[simp] lemma update_particles_special_food_timer (g : SnakeGame) :
    (update_particles g).special_food_timer = g.special_food_timer := rfl

@[simp] lemma update_particles_direction (g : SnakeGame) :
    (update_particles g).direction = g.direction := rfl

@[simp] lemma update_particles_next_direction (g : SnakeGame) :
    (update_particles g).next_direction = g.next_direction := rfl

lemma draw_frame_of_gameOver {g : SnakeGame} (h : g.state = GameState.gameOver) :
    draw_frame g = g := by
  unfold draw_frame
  rw [h]
  rfl

lemma draw_frame_of_menu {g : SnakeGame} (h : g.state = GameState.menu) :
    draw_frame g = g := by
  unfold draw_frame
  rw [h]
  rfl

lemma draw_frame_of_playing {g : SnakeGame} (h : g.state = GameState.playing) :
    draw_frame g = draw_food g := by
  unfold draw_frame
  rw [h]
  rfl

lemma draw_frame_of_paused {g : SnakeGame} (h : g.state = GameState.paused) :
    draw_frame g = draw_food g := by
  unfold draw_frame
  rw [h]
  rfl

lemma update_step_of_playing {g : SnakeGame} (h : g.state = GameState.playing)
    (i j : Nat) (roll : Bool) :
    update_step g i j roll =
      { update_particles (move_snake g i j roll) with
        fps := min (10 + Int.fdiv (move_snake g i j roll).score 50) 20 } := by
  unfold update_step
  rw [if_pos h]
  rfl

lemma update_step_of_not_playing {g : SnakeGame} (h : g.state ≠ GameState.playing)
    (i j : Nat) (roll : Bool) :
    update_step g i j roll = g := by
  unfold update_step
  rw [if_neg h]

lemma update_step_playing_snake {g : SnakeGame} (h : g.state = GameState.playing)
    (i j : Nat) (roll : Bool) :
    (update_step g i j roll).snake = (move_snake g i j roll).snake := by
  rw [update_step_of_playing h]
  rfl

/-- C1: in the Playing state, a tick that does not end in a wall or self
collision leaves the snake length unchanged when no food cell (normal or
special) is eaten, and grows it by exactly one when one is eaten. -/
theorem C1_snake_length_per_tick (g : SnakeGame) (i j : Nat) (roll : Bool)
    (head : Int × Int) (hstate : g.state = GameState.playing)
    (hhead : g.snake.getLast? = some head) (hgrow : g.growing = false)
    (hno : in_bounds g (next_head g head)) (hmem : next_head g head ∉ g.snake) :
    ((g.food_pos = some (next_head g head) ∨
        g.special_food_pos = some (next_head g head)) →
      (update_step g i j roll).snake.length = g.snake.length + 1) ∧
    (¬ (g.food_pos = some (next_head g head) ∨
        g.special_food_pos = some (next_head g head)) →
      (update_step g i j roll).snake.length = g.snake.length) := by
  rw [update_step_playing_snake hstate]
  by_cases hf : g.food_pos = some (next_head g head) <;>
    by_cases hs : g.special_food_pos = some (next_head g head)
  · rw [move_snake_eat_both g i j roll head hhead hno hmem hf hs]
    exact ⟨fun _ => by simp, fun hn => absurd (Or.inl hf) hn⟩
  · rw [move_snake_eat_food g i j roll head hhead hno hmem hf hs]
    exact ⟨fun _ => by simp, fun hn => absurd (Or.inl hf) hn⟩
  · rw [move_snake_eat_special g i j roll head hhead hno hmem hf hs]
    exact ⟨fun _ => by simp, fun hn => absurd (Or.inr hs) hn⟩
  · rw [move_snake_no_food g i j roll head hhead hno hmem hgrow hf hs]
    refine ⟨fun h => absurd h (by tauto), fun _ => ?_⟩
    simp

/-- Witness for C1 at a concrete state: the snake of length 3 moves right
into the normal food cell and ends with length 4. -/
theorem C1_witness :
    (update_step mkGame 0 0 false).snake.length = mkGame.snake.length + 1 :=
  (C1_snake_length_per_tick mkGame 0 0 false (3, 2) rfl (by decide) rfl
    (by decide) (by decide)).1 (Or.inl (by decide))

/-- C2: in the Playing state, a tick whose new head leaves the grid or hits a
cell of the snake (the current tail included) ends the frame in the GameOver
state with snake, score and both food positions untouched. -/
theorem C2_collision_game_over (g : SnakeGame) (i j : Nat) (roll : Bool)
    (head : Int × Int) (hstate : g.state = GameState.playing)
    (hhead : g.snake.getLast? = some head)
    (hcol : ¬ in_bounds g (next_head g head) ∨ next_head g head ∈ g.snake) :
    (frame g i j roll).state = GameState.gameOver ∧
    (frame g i j roll).snake = g.snake ∧
    (frame g i j roll).score = g.score ∧
    (frame g i j roll).food_pos = g.food_pos ∧
    (frame g i j roll).special_food_pos = g.special_food_pos ∧
    (frame g i j roll).special_food_timer = g.special_food_timer := by
  unfold frame
  rw [update_step_of_playing hstate, move_snake_collision g i j roll head hhead hcol]
  rw [draw_frame_of_gameOver (by simp)]
  exact ⟨by simp, by simp, by simp, by simp, by simp, by simp⟩

/-- Witness for C2 at a concrete state: the head at (5, 2) moves right to
(6, 2) = (grid_width, y), and the frame ends in GameOver with the snake
unchanged. -/
theorem C2_witness :
    (frame gameWall 0 0 false).state = GameState.gameOver ∧
    (frame gameWall 0 0 false).snake = gameWall.snake :=
  ⟨(C2_collision_game_over gameWall 0 0 false (5, 2) rfl (by decide)
      (Or.inl (by decide))).1,
   (C2_collision_game_over gameWall 0 0 false (5, 2) rfl (by decide)
      (Or.inl (by decide))).2.1⟩

/-- C3: whatever random draws are made, spawned normal and special food
positions avoid every snake cell, and spawning on a board with no free cell
yields absent food positions rather than an error. -/
theorem C3_spawn_food_free_cells (g : SnakeGame) (i j : Nat) (roll : Bool)
    (p : Int × Int) :
    ((spawn_food g i j roll).food_pos = some p → p ∉ g.snake) ∧
    ((spawn_food g i j roll).special_food_pos = some p → p ∉ g.snake) ∧
    (valid_positions g.grid_width g.grid_height g.snake = [] →
      (spawn_food g i j roll).food_pos = none ∧
      (spawn_food g i j roll).special_food_pos = none) := by
  refine ⟨?_, ?_, ?_⟩
  · intro h
    rw [spawn_food_food_pos] at h
    exact mem_valid_positions (choice_mem h)
  · intro h
    rw [spawn_food_special_food_pos] at h
    by_cases hr : roll = true
    · rw [if_pos hr] at h
      exact mem_valid_positions (choice_mem h)
    · rw [if_neg hr] at h
      exact absurd h (by simp)
  · intro hvp
    constructor
    · rw [spawn_food_food_pos, hvp]
      simp [choice]
    · rw [spawn_food_special_food_pos, hvp]
      split
      · simp [choice]
      · rfl

/-- Witness for C3: on `mkGame` the spawned cell (0, 0) avoids the snake, and
on the fully occupied board both food positions come out absent. -/
theorem C3_witness :
    ((0, 0) : Int × Int) ∉ mkGame.snake ∧
    ((spawn_food fullGame 0 0 true).food_pos = none ∧
     (spawn_food fullGame 0 0 true).special_food_pos = none) :=
  ⟨(C3_spawn_food_free_cells mkGame 0 0 true (0, 0)).1 (by decide),
   (C3_spawn_food_free_cells fullGame 0 0 true (0, 0)).2.2 (by decide)⟩

/-! Helper lemmas about input handling and the committed direction. -/

lemma handle_input_direction (g : SnakeGame) (k : Key) :
    (handle_input g k).direction = g.direction := by
  unfold handle_input
  rcases key_mapping k with _ | nd
  · rfl
  · dsimp only
    split <;> rfl

lemma handle_input_no_reverse {g : SnakeGame}
    (hinv : g.next_direction ≠ direction_opposites g.direction) (k : Key) :
    (handle_input g k).next_direction ≠ direction_opposites g.direction := by
  unfold handle_input
  rcases key_mapping k with _ | nd
  · exact hinv
  · dsimp only
    split
    · next h => simpa using h
    · exact hinv

lemma foldl_handle_input_direction (g : SnakeGame) (ks : List Key) :
    (ks.foldl handle_input g).direction = g.direction := by
  induction ks generalizing g with
  | nil => rfl
  | cons k ks ih => rw [List.foldl_cons, ih, handle_input_direction]

lemma foldl_handle_input_no_reverse {g : SnakeGame}
    (hinv : g.next_direction ≠ direction_opposites g.direction) (ks : List Key) :
    (ks.foldl handle_input g).next_direction ≠ direction_opposites g.direction := by
  induction ks generalizing g with
  | nil => exact hinv
  | cons k ks ih =>
    rw [List.foldl_cons]
    have h2 := ih (g := handle_input g k)
      (by rw [handle_input_direction]; exact handle_input_no_reverse hinv k)
    rwa [handle_input_direction] at h2

lemma move_snake_direction (g : SnakeGame) (i j : Nat) (roll : Bool) :
    (move_snake g i j roll).direction = g.next_direction := by
  unfold move_snake
  dsimp only
  rcases g.snake.getLast? with _ | head
  · rfl
  · dsimp only
    split
    · rw [game_over_direction]
    · split <;> split <;> first | rfl | (split <;> simp [spawn_food, create_eat_effect])

/-- C4: a key press handled during play never buffers the opposite of the
committed direction, and consequently the direction a tick commits is never
the 180° reversal of the previously committed one. The hypothesis is the
game invariant (true after `_reset_game` and after every tick, both of which
leave `next_direction` equal to `direction`, never its own opposite). -/
theorem C4_no_reversal (g : SnakeGame) (k : Key) (ks : List Key) (i j : Nat)
    (roll : Bool)
    (hinv : g.next_direction ≠ direction_opposites g.direction) :
    (handle_input g k).next_direction ≠
      direction_opposites ((handle_input g k).direction) ∧
    (move_snake (ks.foldl handle_input g) i j roll).direction ≠
      direction_opposites g.direction := by
  constructor
  · rw [handle_input_direction]
    exact handle_input_no_reverse hinv k
  · rw [move_snake_direction]
    exact foldl_handle_input_no_reverse hinv ks

/-- Witness for C4: a left-arrow press against a right-moving snake is
rejected both at the buffer and at the next committed tick. -/
theorem C4_witness :
    (handle_input mkGame Key.arrowLeft).next_direction ≠
      direction_opposites ((handle_input mkGame Key.arrowLeft).direction) ∧
    (move_snake ([Key.arrowLeft].foldl handle_input mkGame) 0 0 false).direction ≠
      direction_opposites mkGame.direction :=
  C4_no_reversal mkGame Key.arrowLeft [Key.arrowLeft] 0 0 false (by decide)

/-- Counterexample to C5 as stated: at `gameShared` the head enters the cell
holding the special food, so a special food item is consumed, yet the score
increases by 10, not by 50. -/
theorem C5_counterexample :
    gameShared.food_pos = some (4, 2) ∧
    gameShared.special_food_pos = some (4, 2) ∧
    gameShared.snake.getLast? = some (3, 2) ∧
    next_head gameShared (3, 2) = (4, 2) ∧
    (move_snake gameShared 0 0 false).score = gameShared.score + 10 ∧
    (move_snake gameShared 0 0 false).score ≠ gameShared.score + 50 := by
  decide

/-- C5 (amended): on a tick that does not collide, the score increases by
exactly 10 when the head enters the normal food cell (even if the special
food shares that cell, which then yields no extra points), by exactly 50
when it enters the special food cell alone, and is unchanged otherwise;
on a colliding tick it is unchanged; so the score never decreases. -/
theorem C5_score_per_food (g : SnakeGame) (i j : Nat) (roll : Bool)
    (head : Int × Int) (hhead : g.snake.getLast? = some head)
    (hgrow : g.growing = false) :
    (in_bounds g (next_head g head) → next_head g head ∉ g.snake →
      ((g.food_pos = some (next_head g head) →
          (move_snake g i j roll).score = g.score + 10) ∧
       (g.food_pos ≠ some (next_head g head) →
          g.special_food_pos = some (next_head g head) →
          (move_snake g i j roll).score = g.score + 50) ∧
       (g.food_pos ≠ some (next_head g head) →
          g.special_food_pos ≠ some (next_head g head) →
          (move_snake g i j roll).score = g.score))) ∧
    g.score ≤ (move_snake g i j roll).score := by
  constructor
  · intro hno hmem
    refine ⟨?_, ?_, ?_⟩
    · intro hf
      by_cases hs : g.special_food_pos = some (next_head g head)
      · rw [move_snake_eat_both g i j roll head hhead hno hmem hf hs]
      · rw [move_snake_eat_food g i j roll head hhead hno hmem hf hs]
    · intro hnf hs
      rw [move_snake_eat_special g i j roll head hhead hno hmem hnf hs]
    · intro hnf hns
      rw [move_snake_no_food g i j roll head hhead hno hmem hgrow hnf hns]
  · by_cases hcol : ¬ in_bounds g (next_head g head) ∨ next_head g head ∈ g.snake
    · rw [move_snake_collision g i j roll head hhead hcol, game_over_score]
    · push_neg at hcol
      obtain ⟨hno, hmem⟩ := hcol
      by_cases hf : g.food_pos = some (next_head g head) <;>
        by_cases hs : g.special_food_pos = some (next_head g head)
      · rw [move_snake_eat_both g i j roll head hhead hno hmem hf hs]
        simp
      · rw [move_snake_eat_food g i j roll head hhead hno hmem hf hs]
        simp
      · rw [move_snake_eat_special g i j roll head hhead hno hmem hf hs]
        simp
      · rw [move_snake_no_food g i j roll head hhead hno hmem hgrow hf hs]

/-- Witness for C5 at a concrete state: eating the normal food ahead adds
exactly 10 points. -/
theorem C5_witness :
    (move_snake mkGame 0 0 false).score = mkGame.score + 10 :=
  ((C5_score_per_food mkGame 0 0 false (3, 2) (by decide) rfl).1
    (by decide) (by decide)).1 (by decide)

/-- C6: at the game-over transition the stored high score is updated exactly
when the score strictly exceeds it, in which case it becomes the score and
the persistence file is immediately rewritten; otherwise both the high
score and the file are untouched. -/
theorem C6_high_score_update (g : SnakeGame) :
    (game_over g).state = GameState.gameOver ∧
    (g.high_score < g.score →
      (game_over g).high_score = g.score ∧
      (game_over g).file = some (save_high_score g.score)) ∧
    (¬ g.high_score < g.score →
      (game_over g).high_score = g.high_score ∧
      (game_over g).file = g.file) :=
  ⟨game_over_state g,
   fun h => game_over_high_score_of_lt h,
   fun h => game_over_high_score_of_not_lt h⟩

/-- Witness for C6: with score 60 against high score 40, game over stores 60
and writes it to the file. -/
theorem C6_witness :
    (game_over gameC6).high_score = gameC6.score ∧
    (game_over gameC6).file = some (save_high_score gameC6.score) :=
  (C6_high_score_update gameC6).2.1 (by decide)

/-! Helper lemmas about `draw_food` and the full frame. -/

lemma draw_food_snake (g : SnakeGame) : (draw_food g).snake = g.snake := by
  unfold draw_food
  dsimp only
  split <;> (try split) <;> rfl

lemma draw_food_direction (g : SnakeGame) :
    (draw_food g).direction = g.direction := by
  unfold draw_food
  dsimp only
  split <;> (try split) <;> rfl

lemma draw_food_next_direction (g : SnakeGame) :
    (draw_food g).next_direction = g.next_direction := by
  unfold draw_food
  dsimp only
  split <;> (try split) <;> rfl

lemma draw_food_score (g : SnakeGame) : (draw_food g).score = g.score := by
  unfold draw_food
  dsimp only
  split <;> (try split) <;> rfl

lemma draw_food_high_score (g : SnakeGame) :
    (draw_food g).high_score = g.high_score := by
  unfold draw_food
  dsimp only
  split <;> (try split) <;> rfl

lemma draw_food_food_pos (g : SnakeGame) :
    (draw_food g).food_pos = g.food_pos := by
  unfold draw_food
  dsimp only
  split <;> (try split) <;> rfl

lemma draw_food_state (g : SnakeGame) : (draw_food g).state = g.state := by
  unfold draw_food
  dsimp only
  split <;> (try split) <;> rfl

lemma draw_food_particles (g : SnakeGame) :
    (draw_food g).particles = g.particles := by
  unfold draw_food
  dsimp only
  split <;> (try split) <;> rfl

lemma draw_food_of_no_special {g : SnakeGame}
    (h : g.special_food_pos = none) : draw_food g = g := by
  unfold draw_food
  rw [if_neg (by simp [h])]

lemma draw_food_eq_of_present {g : SnakeGame}
    (hsp : g.special_food_pos.isSome) (ht : 0 < g.special_food_timer) :
    draw_food g =
      if g.special_food_timer - 1 = 0 then
        { g with special_food_timer := g.special_food_timer - 1,
                 special_food_pos := none }
      else { g with special_food_timer := g.special_food_timer - 1 } := by
  unfold draw_food
  rw [if_pos ⟨hsp, ht⟩]

lemma move_snake_state_of_no_collision (g : SnakeGame) (i j : Nat) (roll : Bool)
    (head : Int × Int) (hhead : g.snake.getLast? = some head)
    (hno : in_bounds g (next_head g head)) (hmem : next_head g head ∉ g.snake) :
    (move_snake g i j roll).state = g.state := by
  unfold move_snake
  simp only [hhead]
  rw [if_neg (by push_neg; exact ⟨hno, hmem⟩)]
  split <;> split <;> first | rfl | (split <;> simp [spawn_food, create_eat_effect])

lemma frame_playing_eq {g : SnakeGame} (i j : Nat) (roll : Bool)
    (h : g.state = GameState.playing)
    (hpost : (move_snake g i j roll).state = GameState.playing) :
    frame g i j roll =
      draw_food { update_particles (move_snake g i j roll) with
                  fps := min (10 + Int.fdiv (move_snake g i j roll).score 50) 20 } := by
  unfold frame
  rw [update_step_of_playing h]
  exact draw_frame_of_playing (by simp [hpost])

/-- Counterexample to C7 as stated: in the Paused state the simulation
update is the identity — no simulation tick occurs — yet the frame still
decrements the special food timer (it lives in the drawing pass), so the
decrement is per frame, not per simulation tick. -/
theorem C7_counterexample :
    gamePausedSpecial.state = GameState.paused ∧
    update_step gamePausedSpecial 0 0 false = gamePausedSpecial ∧
    (frame gamePausedSpecial 0 0 false).snake = gamePausedSpecial.snake ∧
    gamePausedSpecial.special_food_timer = 150 ∧
    (frame gamePausedSpecial 0 0 false).special_food_timer = 149 :=
  ⟨rfl, rfl, rfl, rfl, rfl⟩

/-- C7 (amended): while special food is present with a positive countdown,
the countdown is decremented exactly once per rendered frame whose
state is Playing (on ticks that eat nothing and do not collide — there this
is once per simulation tick) or Paused (where no tick runs at all); when the
countdown reaches zero uneaten, the special food position becomes absent and
the score is unchanged. -/
theorem C7_special_timer (g : SnakeGame) (i j : Nat) (roll : Bool)
    (p : Int × Int)
    (hsp : g.special_food_pos = some p) (ht : 0 < g.special_food_timer)
    (hcase :
      (g.state = GameState.playing ∧
        ∃ head, g.snake.getLast? = some head ∧
          in_bounds g (next_head g head) ∧ next_head g head ∉ g.snake ∧
          g.food_pos ≠ some (next_head g head) ∧
          g.special_food_pos ≠ some (next_head g head) ∧ g.growing = false) ∨
      g.state = GameState.paused) :
    (frame g i j roll).special_food_timer = g.special_food_timer - 1 ∧
    (g.special_food_timer = 1 → (frame g i j roll).special_food_pos = none) ∧
    (1 < g.special_food_timer →
      (frame g i j roll).special_food_pos = g.special_food_pos) ∧
    (frame g i j roll).score = g.score := by
  rcases hcase with ⟨hstate, head, hhead, hno, hmem, hnf, hns, hgrow⟩ | hpaused
  · have hpost : (move_snake g i j roll).state = GameState.playing := by
      rw [move_snake_state_of_no_collision g i j roll head hhead hno hmem]
      exact hstate
    rw [frame_playing_eq i j roll hstate hpost]
    rw [move_snake_no_food g i j roll head hhead hno hmem hgrow hnf hns]
    rw [draw_food_eq_of_present (by simp [hsp]) (by simpa using ht)]
    split
    · next h1 =>
      refine ⟨by simp, fun _ => by simp, fun hgt => by simp at h1 ⊢; omega, by simp⟩
    · next h1 =>
      refine ⟨by simp, fun h2 => by simp at h1 ⊢; omega, fun _ => by simp [hsp], by simp⟩
  · have hnp : g.state ≠ GameState.playing := by rw [hpaused]; decide
    unfold frame
    rw [update_step_of_not_playing hnp]
    rw [draw_frame_of_paused hpaused]
    rw [draw_food_eq_of_present (by simp [hsp]) ht]
    split
    · next h1 =>
      exact ⟨rfl, fun _ => rfl, fun hgt => by omega, rfl⟩
    · next h1 =>
      exact ⟨rfl, fun h2 => by omega, fun _ => by simp [hsp], rfl⟩

/-- Witness for C7 (amended) at a concrete playing state: a tick that eats
nothing drops the live special timer from 150 to 149 with the score
unchanged. -/
theorem C7_witness :
    (frame gameTimer 0 0 false).special_food_timer =
      gameTimer.special_food_timer - 1 ∧
    (frame gameTimer 0 0 false).score = gameTimer.score :=
  ⟨(C7_special_timer gameTimer 0 0 false (0, 1) rfl (by decide)
      (Or.inl ⟨rfl, (3, 2), by decide, by decide, by decide, by decide,
        by decide, rfl⟩)).1,
   (C7_special_timer gameTimer 0 0 false (0, 1) rfl (by decide)
      (Or.inl ⟨rfl, (3, 2), by decide, by decide, by decide, by decide,
        by decide, rfl⟩)).2.2.2⟩

/-- Counterexample to C8 as stated: the drawing operation `_draw_food`
modifies simulation state — it decrements the special food timer. -/
theorem C8_counterexample :
    gameSpecial.special_food_timer = 150 ∧
    (draw_food gameSpecial).special_food_timer = 149 :=
  ⟨rfl, rfl⟩

/-- C8 (amended): every drawing operation other than `_draw_food` leaves the
game unchanged in every state; `_draw_food` preserves the snake, direction,
buffered direction, score, high score, normal food, game state and
particles, and is the identity whenever no special food is present, but
while special food is present it decrements the special food timer and
clears the expired special food. -/
theorem C8_draw_preserves_state (g : SnakeGame) :
    draw_grid g = g ∧ draw_snake g = g ∧ draw_particles g = g ∧
    draw_ui g = g ∧ draw_menu g = g ∧ draw_game_over g = g ∧
    draw_pause g = g ∧
    (draw_food g).snake = g.snake ∧
    (draw_food g).direction = g.direction ∧
    (draw_food g).next_direction = g.next_direction ∧
    (draw_food g).score = g.score ∧
    (draw_food g).high_score = g.high_score ∧
    (draw_food g).food_pos = g.food_pos ∧
    (draw_food g).state = g.state ∧
    (draw_food g).particles = g.particles ∧
    (g.special_food_pos = none → draw_food g = g) :=
  ⟨rfl, rfl, rfl, rfl, rfl, rfl, rfl,
   draw_food_snake g, draw_food_direction g, draw_food_next_direction g,
   draw_food_score g, draw_food_high_score g, draw_food_food_pos g,
   draw_food_state g, draw_food_particles g,
   fun h => draw_food_of_no_special h⟩

/-- Witness for C8 at a concrete state with no special food: `_draw_food`
is the identity there. -/
theorem C8_witness : draw_food mkGame = mkGame := by
  obtain ⟨-, -, -, -, -, -, -, -, -, -, -, -, -, -, -, h⟩ :=
    C8_draw_preserves_state mkGame
  exact h rfl

/-- C9: saving a high score N and loading it back (as at process restart)
returns exactly N: the save/load pair is a round-trip identity. -/
theorem C9_high_score_roundtrip (n : Nat) :
    load_high_score (some (save_high_score (n : Int))) = (n : Int) := rfl

/-- C10: the two food positions are drawn independently from the same
candidate list, so a spawn outcome can place the special food exactly on the
normal food (first conjunct: equal random indices collide); when the head
then enters that shared cell, the score rises by exactly 10 — not 50 and
not 60 — and a fresh food pair is spawned from the grown snake's free
cells (clearing the consumed special item). -/
theorem C10_shared_cell (g : SnakeGame) (i j : Nat) (roll : Bool)
    (head p : Int × Int)
    (hvp : valid_positions g.grid_width g.grid_height g.snake ≠ [])
    (hhead : g.snake.getLast? = some head)
    (hfp : g.food_pos = some p) (hsp : g.special_food_pos = some p)
    (hnh : next_head g head = p)
    (hno : in_bounds g p) (hmem : p ∉ g.snake) :
    ((spawn_food g i i true).food_pos = (spawn_food g i i true).special_food_pos ∧
      (spawn_food g i i true).food_pos.isSome = true) ∧
    (move_snake g i j roll).score = g.score + 10 ∧
    (move_snake g i j roll).score ≠ g.score + 50 ∧
    (move_snake g i j roll).score ≠ g.score + 60 ∧
    (move_snake g i j roll).special_food_pos =
      (if roll then
        choice (valid_positions g.grid_width g.grid_height (g.snake ++ [p])) j
       else none) ∧
    (move_snake g i j roll).food_pos =
      choice (valid_positions g.grid_width g.grid_height (g.snake ++ [p])) i := by
  have hf : g.food_pos = some (next_head g head) := by rw [hnh]; exact hfp
  have hs : g.special_food_pos = some (next_head g head) := by rw [hnh]; exact hsp
  have hno' : in_bounds g (next_head g head) := by rw [hnh]; exact hno
  have hmem' : next_head g head ∉ g.snake := by rw [hnh]; exact hmem
  refine ⟨⟨?_, ?_⟩, ?_, ?_, ?_, ?_, ?_⟩
  · rw [spawn_food_food_pos, spawn_food_special_food_pos, if_pos rfl]
  · rw [spawn_food_food_pos]
    exact choice_isSome hvp i
  · rw [move_snake_eat_both g i j roll head hhead hno' hmem' hf hs]
  · rw [move_snake_eat_both g i j roll head hhead hno' hmem' hf hs]
    simp only []
    omega
  · rw [move_snake_eat_both g i j roll head hhead hno' hmem' hf hs]
    simp only []
    omega
  · rw [move_snake_eat_both g i j roll head hhead hno' hmem' hf hs]
    rw [hnh]
  · rw [move_snake_eat_both g i j roll head hhead hno' hmem' hf hs]
    rw [hnh]

/-- Witness for C10 at `gameShared`: eating the shared cell (4, 2) adds
exactly 10 points, and equal spawn indices produce coinciding food items. -/
theorem C10_witness :
    (move_snake gameShared 0 0 true).score = gameShared.score + 10 ∧
    (spawn_food gameShared 5 5 true).food_pos =
      (spawn_food gameShared 5 5 true).special_food_pos :=
  ⟨(C10_shared_cell gameShared 0 0 true (3, 2) (4, 2) (by decide) (by decide)
      (by decide) (by decide) (by decide) (by decide) (by decide)).2.1,
   (C10_shared_cell gameShared 5 0 true (3, 2) (4, 2) (by decide) (by decide)
      (by decide) (by decide) (by decide) (by decide) (by decide)).1.1⟩

end Snake2025
